import Mathlib

/-!
Shallow embedding of three mmhuman3d source files and proofs about them:

* `mmhuman3d/core/visualization/renderer/torch3d_renderer/render_runner.py`
  (the batched render loop `render`),
* `mmhuman3d/core/visualization/renderer/torch3d_renderer/pointcloud_renderer.py`
  (`PointCloudRenderer._init_renderer` and `PointCloudRenderer.forward`),
* `mmhuman3d/models/heads/builder.py` (`build_head`).

Machine tensors are modelled at the level the claims need: shape-level records
for the input-selection logic, index-function tensors over `ℚ` for the
compositing arithmetic, and plain `List Nat` index lists for the batch loop.
-/

set_option autoImplicit false

namespace Mmhuman3d

namespace RenderRunner

/-- Frame indexes handed to the renderer on loop iteration `i` of `render`:
the source computes `list(range(i * batch_size, min((i + 1) * batch_size, len(meshes))))`
where `len(meshes) = num_frames`. -/
def chunkIndexes (batchSize numFrames i : Nat) : List Nat :=
  List.range' (i * batchSize) (min ((i + 1) * batchSize) numFrames - i * batchSize)

/-- Number of iterations of the chunk loop in `render`. The source writes
`math.ceil(num_frames // batch_size)`; Python `//` is integer floor division and
`math.ceil` of an `int` is that `int` unchanged, so the iteration count is the
floor `num_frames / batch_size`, not the ceiling of the true quotient. -/
def loopCount (numFrames batchSize : Nat) : Nat :=
  numFrames / batchSize

/-- The per-invocation index chunks produced by the loop in `render`, in order. -/
def renderChunks (numFrames batchSize : Nat) : List (List Nat) :=
  (List.range (loopCount numFrames batchSize)).map (chunkIndexes batchSize numFrames)

/-- All frame indexes rendered over the whole run of `render`, in order. -/
def renderedIndexes (numFrames batchSize : Nat) : List Nat :=
  (renderChunks numFrames batchSize).flatten

/-- Observable events of one call to `render`: a renderer invocation on a chunk
of indexes (producing an output batch), or the final `renderer.export()` call. -/
inductive Event (α : Type) where
  | invoke (indexes : List Nat) (out : α)
  | exportCall
  deriving DecidableEq

/-- Event trace of `render`: one renderer invocation per chunk, in loop order,
followed by exactly one `renderer.export()` call after the loop. `f` models the
renderer: the output batch it returns for a chunk of frame indexes. -/
def renderEvents {α : Type} (numFrames batchSize : Nat) (f : List Nat → α) :
    List (Event α) :=
  ((renderChunks numFrames batchSize).map (fun c => Event.invoke c (f c))) ++
    [Event.exportCall]

/-- Model of `torch.cat` along dim 0 on a Python list of tensors, a tensor
being a list of frames: `torch.cat` raises a `RuntimeError` when the list is
empty, otherwise it concatenates. -/
def torchCat {α : Type} (ts : List (List α)) : Except String (List α) :=
  match ts with
  | [] => Except.error "RuntimeError: expected a non-empty TensorList"
  | _ => Except.ok ts.flatten

/-- Return value of `render`: with `return_tensor` the loop appends each chunk's
`images_batch['tensor']` to `tensors` and the function returns
`torch.cat(tensors)`; otherwise it returns `None`. `torch.cat` can raise, hence
the `Except`. `f` models the renderer output (`['tensor']`) per chunk. -/
def renderResult {α : Type} (numFrames batchSize : Nat) (returnTensor : Bool)
    (f : List Nat → List α) : Except String (Option (List α)) :=
  if returnTensor then
    Except.map Option.some (torchCat ((renderChunks numFrames batchSize).map f))
  else
    Except.ok none

/-- `cameras.extend(n)`: every camera of the batch repeated `n` times
(pytorch3d batch-structure semantics). -/
def extendCameras {Cam : Type} (cams : List Cam) (n : Nat) : List Cam :=
  cams.flatMap (fun c => List.replicate n c)

/-- The camera batch the chunk loop of `render` indexes into: the source runs
`if len(cameras) == 1: cameras = cameras.extend(num_frames)` before the loop,
and leaves a batch of any other length as given. -/
def effectiveCameras {Cam : Type} (cams : List Cam) (numFrames : Nat) : List Cam :=
  if cams.length = 1 then extendCameras cams numFrames else cams

end RenderRunner

namespace PointCloudRenderer

/-- Python exceptions that `PointCloudRenderer._init_renderer` can raise. -/
inductive PyErr where
  | typeError (msg : String)
  | attributeError (msg : String)
  deriving DecidableEq

/-- The fields of `PointsRasterizationSettings` that the renderer touches:
`image_size` (assigned from the renderer resolution) and `radius` (read back in
`forward`). -/
structure RasterSettingsT where
  image_size : Option (Nat × Nat)
  radius : ℚ
  deriving DecidableEq

/-- A `pytorch3d.renderer.PointsRasterizer` module: it carries its
`raster_settings`. -/
structure PointsRasterizerT where
  raster_settings : RasterSettingsT
  deriving DecidableEq

/-- A rasterizer config dict. The only key `_init_renderer` conditionally
overwrites is `radius`; `radius` here is the value `PointsRasterizationSettings`
ends up with from the dict (the settings default when the key is absent). -/
structure RasterizerDict where
  radius : ℚ
  deriving DecidableEq

/-- The `rasterizer` argument of `_init_renderer`: an `nn.Module`
(a pre-built rasterizer), a dict, or any other Python value. -/
inductive RasterizerArg where
  | module (m : PointsRasterizerT)
  | dict (d : RasterizerDict)
  | other (descr : String)
  deriving DecidableEq

/-- A compositor config dict: `AlphaCompositor(**compositor)` reads its
`background_color` key. -/
structure CompositorDict where
  background_color : Option (List ℚ)
  deriving DecidableEq

/-- An installed compositor: an `AlphaCompositor` built from a dict, or a
pre-built `nn.Module` passed through. -/
inductive CompositorT where
  | alphaCompositor (background_color : Option (List ℚ))
  | module (id : Nat)
  deriving DecidableEq

/-- The `compositor` argument of `_init_renderer`: a dict, an `nn.Module`, or
any other Python value. -/
inductive CompositorArg where
  | dict (d : CompositorDict)
  | module (m : CompositorT)
  | other (descr : String)
  deriving DecidableEq

/-- Renderer state installed by a successful `_init_renderer`. -/
structure InitState where
  rasterizer : PointsRasterizerT
  compositor : CompositorT
  shader_type : Option Nat
  deriving DecidableEq

/-- Second half of `_init_renderer`: dispatch on the `compositor` argument.
A dict builds an `AlphaCompositor`, an `nn.Module` is installed as given, and
any other value reaches `raise TypeError(f'Wrong type of compositor:
\x7btype(self.compositor)\x7d.')`. Evaluating that f-string reads
`self.compositor`, which has not been assigned on this path, so the attribute
lookup (through `nn.Module.__getattr__`) raises an `AttributeError` before the
`TypeError` is ever constructed. -/
def initCompositor (rast : PointsRasterizerT) (compositor : CompositorArg) :
    Except PyErr InitState :=
  match compositor with
  | CompositorArg.dict d =>
    Except.ok { rasterizer := rast
                compositor := CompositorT.alphaCompositor d.background_color
                shader_type := none }
  | CompositorArg.module m =>
    Except.ok { rasterizer := rast, compositor := m, shader_type := none }
  | CompositorArg.other _ =>
    Except.error
      (PyErr.attributeError "PointCloudRenderer object has no attribute compositor")

/-- `PointCloudRenderer._init_renderer(rasterizer, compositor)`.
`resolution` and `self_radius` are the `self.resolution` / `self.radius` set by
`__init__`. An `nn.Module` rasterizer gets its `raster_settings.image_size`
overwritten with the resolution; a dict gets `image_size` set, `radius`
overridden by `self.radius` when that is not `None`, and is turned into a
`PointsRasterizer`; any other value reaches `raise TypeError(f'Wrong type of
rasterizer: \x7btype(self.rasterizer)\x7d.')`, whose f-string reads the
not-yet-assigned `self.rasterizer` and therefore raises an `AttributeError`
instead. -/
def init_renderer (resolution : Nat × Nat) (self_radius : Option ℚ)
    (rasterizer : RasterizerArg) (compositor : CompositorArg) :
    Except PyErr InitState :=
  match rasterizer with
  | RasterizerArg.module m =>
    initCompositor
      { m with raster_settings :=
          { m.raster_settings with image_size := some resolution } }
      compositor
  | RasterizerArg.dict d =>
    let radius : ℚ :=
      match self_radius with
      | some r => r
      | none => d.radius
    initCompositor { raster_settings := { image_size := some resolution, radius := radius } }
      compositor
  | RasterizerArg.other _ =>
    Except.error
      (PyErr.attributeError "PointCloudRenderer object has no attribute rasterizer")

/-- Shape-level model of a `torch.Tensor`. -/
structure PyTensor where
  shape : List Nat
  deriving DecidableEq

/-- The `vertices` / `verts_rgba` argument of `forward`:
`Union[torch.Tensor, List[torch.Tensor]]`. -/
inductive TensorArg where
  | tensor (t : PyTensor)
  | tensorList (l : List PyTensor)
  deriving DecidableEq

/-- `t[None]`: insert a leading batch dimension of size 1. -/
def unsqueeze0 (t : PyTensor) : PyTensor :=
  { shape := 1 :: t.shape }

/-- The promotion `forward` applies to `vertices` (and to `verts_rgba`): only a
`torch.Tensor` with `ndim == 2` is replaced by `tensor[None]`; a list of
tensors, or a tensor of any other rank, is passed through unchanged. -/
def promoteIfTensor2d (v : TensorArg) : TensorArg :=
  match v with
  | TensorArg.tensor t =>
    if t.shape.length = 2 then TensorArg.tensor (unsqueeze0 t) else TensorArg.tensor t
  | TensorArg.tensorList l => TensorArg.tensorList l

/-- The point cloud `forward` renders, by provenance: the `pointclouds`
argument itself, the conversion `mesh_to_pointcloud_vc(meshes)`, or
`Pointclouds(points=vertices, features=verts_rgba)` built from the (promoted)
raw tensors. `PC` and `MeshesT` are the external pytorch3d structure types,
kept abstract. -/
inductive PointcloudsVal (PC MeshesT : Type) where
  | given (pc : PC)
  | fromMesh (m : MeshesT)
  | constructed (points : TensorArg) (features : Option TensorArg)

/-- Observable side effects of one call to `forward`. -/
inductive FEvent where
  | warnRedundant
  | rasterize
  | composite
  | writeImages
  deriving DecidableEq

/-- Events of the rendering tail of `forward` once a point cloud exists:
rasterize, composite, and — exactly when `self.output_path is not None` —
convert to rgba and write the images (the source guards the write twice with
the same `self.output_path is not None` test, so once suffices here). -/
def tailEvents (outputPathSet : Bool) : List FEvent :=
  [FEvent.rasterize, FEvent.composite] ++
    (if outputPathSet then [FEvent.writeImages] else [])

/-- One run of `PointCloudRenderer.forward` at the level of geometry selection,
control flow and IO: which events happened in order, whether an exception
escaped, which point cloud was rendered, and whether `rendered_images` was
returned. -/
structure ForwardRun (PC MeshesT : Type) where
  events : List FEvent
  error : Option String
  pointcloud : Option (PointcloudsVal PC MeshesT)
  returned : Bool

/-- `PointCloudRenderer.forward`, control-flow model. Arguments mirror the
source: `output_path` is `self.output_path`; `pointclouds`, `vertices`,
`verts_rgba`, `meshes` are the geometry arguments. Camera handling
(`_init_cameras`, `_update_resolution`) and the device moves have no bearing on
selection, errors or IO and are not observable here; the numeric compositing
stage is modelled separately by `renderCore`. -/
def forward {PC MeshesT : Type} (output_path : Option String)
    (pointclouds : Option PC) (vertices verts_rgba : Option TensorArg)
    (meshes : Option MeshesT) : ForwardRun PC MeshesT :=
  match pointclouds with
  | some pc =>
    let warns : List FEvent :=
      if vertices.isSome || verts_rgba.isSome then [FEvent.warnRedundant] else []
    { events := warns ++ tailEvents output_path.isSome
      error := none
      pointcloud := some (PointcloudsVal.given pc)
      returned := true }
  | none =>
    match meshes with
    | some m =>
      { events := tailEvents output_path.isSome
        error := none
        pointcloud := some (PointcloudsVal.fromMesh m)
        returned := true }
    | none =>
      match vertices with
      | none =>
        { events := []
          error := some "AssertionError"
          pointcloud := none
          returned := false }
      | some v =>
        { events := tailEvents output_path.isSome
          error := none
          pointcloud := some (PointcloudsVal.constructed (promoteIfTensor2d v)
            (Option.map promoteIfTensor2d verts_rgba))
          returned := true }

/-- Index-function model of a rank-4 tensor of rationals. -/
abbrev T4 : Type := Nat → Nat → Nat → Nat → ℚ

/-- Index-function model of a rank-2 tensor of rationals. -/
abbrev T2 : Type := Nat → Nat → ℚ

/-- `x.permute(0, 3, 1, 2)` on a `(B, H, W, K)` tensor: the result at
`(b, k, h, w)` is the input at `(b, h, w, k)`. -/
def permute0312 (x : T4) : T4 :=
  fun b k h w => x b h w k

/-- `x.permute(0, 2, 3, 1)` on a `(B, C, H, W)` tensor: the result at
`(b, h, w, c)` is the input at `(b, c, h, w)`. -/
def permute0231 (x : T4) : T4 :=
  fun b h w c => x b c h w

/-- `x.permute(1, 0)` on a rank-2 tensor. -/
def permute10 (x : T2) : T2 :=
  fun i j => x j i

/-- What the rasterizer returns: per-pixel candidate squared distances
`fragments.dists` and candidate point indexes `fragments.idx`, both laid out
`(B, H, W, K)` (`idx` values modelled as rationals, only passed through). -/
structure Fragments where
  dists : T4
  idx : T4

/-- The three positional tensors `forward` hands to `self.compositor`. -/
structure CompositeCall where
  idxArg : T4
  weightsArg : T4
  featuresArg : T2

/-- The compositing stage of `forward`, verbatim from the source:
`r = self.rasterizer.raster_settings.radius`;
`dists2 = fragments.dists.permute(0, 3, 1, 2)`;
`weights = 1 - dists2 / (r * r)`;
`rendered_images = self.compositor(fragments.idx.long().permute(0, 3, 1, 2),
weights, pointclouds.features_packed().permute(1, 0))`, then
`rendered_images.permute(0, 2, 3, 1)`. Returns the permuted image together
with the exact arguments passed to the compositor. -/
def renderCore (compositor : T4 → T4 → T2 → T4) (fragments : Fragments) (r : ℚ)
    (features : T2) : T4 × CompositeCall :=
  let dists2 := permute0312 fragments.dists
  let weights : T4 := fun b k h w => 1 - dists2 b k h w / (r * r)
  let call : CompositeCall :=
    { idxArg := permute0312 fragments.idx
      weightsArg := weights
      featuresArg := permute10 features }
  let rendered_images := compositor call.idxArg call.weightsArg call.featuresArg
  (permute0231 rendered_images, call)

end PointCloudRenderer

namespace Heads

/-- `build_head(cfg)` from `mmhuman3d/models/heads/builder.py`: `None` maps to
`None`, anything else is handed verbatim to `HEADS.build`. The registry lookup
itself lives in the external `mmcv` library, so it is a parameter
`HEADS_build`. -/
def build_head {Cfg Head : Type} (HEADS_build : Cfg → Head) :
    Option Cfg → Option Head
  | none => none
  | some cfg => some (HEADS_build cfg)

end Heads

namespace RenderRunner

/-- C1: the claim says `render()` partitions the frame indexes
`0..num_frames-1` into consecutive chunks of at most `batch_size` and renders
every frame, including a final partial chunk. The code computes the iteration
count as `math.ceil(num_frames // batch_size)` — a floor division — so at
`num_frames = 7`, `batch_size = 5` the loop runs once, only frames 0–4 are
rendered, and frames 5 and 6 of the partial final chunk are skipped. -/
theorem c1_partial_final_chunk_skipped :
    renderChunks 7 5 = [[0, 1, 2, 3, 4]] ∧
    renderedIndexes 7 5 = [0, 1, 2, 3, 4] ∧
    5 ∉ renderedIndexes 7 5 ∧ 6 ∉ renderedIndexes 7 5 := by
  decide

/-- C4: the claim says `render()` with `return_tensor = True` returns the
concatenation of the per-chunk tensors and calls `export` once after the
chunks. At `num_frames = 3`, `batch_size = 5` the loop body never runs
(`math.ceil(3 // 5) = 0`), `export` is still called (it precedes the
concatenation), and `torch.cat` is then applied to the empty list `tensors`,
raising a `RuntimeError` instead of returning a tensor. -/
theorem c4_zero_chunks_cat_raises :
    renderEvents 3 5 (fun c : List Nat => c) = [Event.exportCall] ∧
    renderResult 3 5 true (fun c : List Nat => c) =
      Except.error "RuntimeError: expected a non-empty TensorList" :=
  ⟨rfl, rfl⟩

/-- C10: before the chunk loop, `render` extends a camera batch of length 1 to
one camera per frame — `effectiveCameras [c] n` is `n` copies of `c`, so every
frame index `i < n` looks up that camera — and leaves a batch of any other
length exactly as given. -/
theorem c10_single_camera_extended {Cam : Type} (cams : List Cam) (n : Nat) :
    (∀ c, cams = [c] →
      effectiveCameras cams n = List.replicate n c ∧
      (effectiveCameras cams n).length = n ∧
      ∀ i, i < n → (effectiveCameras cams n)[i]? = some c) ∧
    (cams.length ≠ 1 → effectiveCameras cams n = cams) := by
  constructor
  · rintro c rfl
    have h1 : effectiveCameras [c] n = List.replicate n c := by
      simp [effectiveCameras, extendCameras]
    refine ⟨h1, by rw [h1]; simp, fun i hi => ?_⟩
    rw [h1]
    simp [List.getElem?_replicate, hi]
  · intro h
    simp [effectiveCameras, h]

/-- Witness for C10 at concrete inputs: a singleton batch `[7]` is extended to
3 frames, a batch `[1, 2]` of length 2 is left unchanged. -/
theorem c10_single_camera_extended_witness :
    effectiveCameras [(7 : Nat)] 3 = List.replicate 3 (7 : Nat) ∧
    effectiveCameras [(1 : Nat), 2] 3 = [1, 2] :=
  ⟨((c10_single_camera_extended [(7 : Nat)] 3).1 7 rfl).1,
   (c10_single_camera_extended [(1 : Nat), 2] 3).2 (by decide)⟩

end RenderRunner

namespace Heads

/-- C7: `build_head(cfg)` returns `None` when `cfg` is `None`, and otherwise
returns exactly `HEADS.build(cfg)`, with no other logic, for every registry
build function and every config. -/
theorem c7_build_head_trivial_registry {Cfg Head : Type} (HEADS_build : Cfg → Head) :
    build_head HEADS_build none = none ∧
    ∀ cfg, build_head HEADS_build (some cfg) = some (HEADS_build cfg) :=
  ⟨rfl, fun _ => rfl⟩

/-- Witness for C7 at a concrete registry function and config. -/
theorem c7_build_head_trivial_registry_witness :
    build_head (fun n : Nat => n + 1) none = none ∧
    build_head (fun n : Nat => n + 1) (some 3) = some 4 :=
  ⟨(c7_build_head_trivial_registry (fun n : Nat => n + 1)).1,
   (c7_build_head_trivial_registry (fun n : Nat => n + 1)).2 3⟩

end Heads

namespace PointCloudRenderer

/-- C2: the claim says `_init_renderer` raises a `TypeError` exactly when the
rasterizer is neither an `nn.Module` nor a dict, or the compositor is neither a
dict nor an `nn.Module`. On the rejecting branches the `raise TypeError`
message formats `type(self.rasterizer)` (resp. `type(self.compositor)`), an
attribute that has not been assigned on that path, so an `AttributeError`
escapes and no `TypeError` is ever raised: at a rasterizer that is a plain int
the call errors with an `AttributeError` and with no `TypeError` message
whatsoever. -/
theorem c2_attribute_error_escapes_not_type_error :
    init_renderer (64, 64) none (RasterizerArg.other "int")
        (CompositorArg.module (CompositorT.alphaCompositor none)) =
      Except.error
        (PyErr.attributeError "PointCloudRenderer object has no attribute rasterizer") ∧
    ¬ ∃ msg, init_renderer (64, 64) none (RasterizerArg.other "int")
        (CompositorArg.module (CompositorT.alphaCompositor none)) =
      Except.error (PyErr.typeError msg) := by
  refine ⟨rfl, ?_⟩
  rintro ⟨msg, h⟩
  simp [init_renderer] at h

/-- C3: `forward` selects its geometry by precedence. A supplied `pointclouds`
wins: it is rendered as given, no exception is raised, and the non-fatal
redundancy warning fires exactly when `vertices` or `verts_rgba` was also
supplied. With no `pointclouds`, a supplied `meshes` is converted
(`mesh_to_pointcloud_vc`) and no warning fires. With neither, the point cloud
is built from `vertices` and `verts_rgba`. -/
theorem c3_geometry_precedence {PC MeshesT : Type} (op : Option String)
    (pcs : Option PC) (v vr : Option TensorArg) (ms : Option MeshesT) :
    (∀ pc, pcs = some pc →
      (forward op pcs v vr ms).pointcloud = some (PointcloudsVal.given pc) ∧
      (forward op pcs v vr ms).error = none ∧
      (FEvent.warnRedundant ∈ (forward op pcs v vr ms).events ↔
        (v.isSome = true ∨ vr.isSome = true))) ∧
    (pcs = none → ∀ m, ms = some m →
      (forward op pcs v vr ms).pointcloud = some (PointcloudsVal.fromMesh m) ∧
      (forward op pcs v vr ms).error = none ∧
      FEvent.warnRedundant ∉ (forward op pcs v vr ms).events) ∧
    (pcs = none → ms = none → ∀ t, v = some t →
      (forward op pcs v vr ms).pointcloud =
        some (PointcloudsVal.constructed (promoteIfTensor2d t)
          (Option.map promoteIfTensor2d vr)) ∧
      (forward op pcs v vr ms).error = none) := by
  refine ⟨?_, ?_, ?_⟩
  · rintro pc rfl
    cases v <;> cases vr <;> simp [forward, tailEvents]
  · rintro rfl m rfl
    cases v <;> cases vr <;> cases op <;> simp [forward, tailEvents]
  · rintro rfl rfl t rfl
    simp [forward]

/-- Witness for C3 at concrete inputs: `pointclouds = some 5` together with a
supplied `vertices` tensor is rendered as given with the redundancy warning. -/
theorem c3_geometry_precedence_witness :
    (forward (none : Option String) (some (5 : Nat))
        (some (TensorArg.tensor ⟨[4, 3]⟩)) none (none : Option Nat)).pointcloud =
      some (PointcloudsVal.given 5) ∧
    (forward (none : Option String) (some (5 : Nat))
        (some (TensorArg.tensor ⟨[4, 3]⟩)) none (none : Option Nat)).error = none ∧
    (FEvent.warnRedundant ∈ (forward (none : Option String) (some (5 : Nat))
        (some (TensorArg.tensor ⟨[4, 3]⟩)) none (none : Option Nat)).events ↔
      ((some (TensorArg.tensor ⟨[4, 3]⟩) : Option TensorArg).isSome = true ∨
        (none : Option TensorArg).isSome = true)) :=
  (c3_geometry_precedence (none : Option String) (some (5 : Nat))
    (some (TensorArg.tensor ⟨[4, 3]⟩)) none (none : Option Nat)).1 5 rfl

/-- C5: on every valid input (at least one of `pointclouds`, `meshes`,
`vertices` supplied) `forward` returns the rendered image tensor, and it writes
the rendered images to disk exactly when `self.output_path` is not `None`. -/
theorem c5_returns_tensor_writes_iff_output_path {PC MeshesT : Type}
    (op : Option String) (pcs : Option PC) (v vr : Option TensorArg)
    (ms : Option MeshesT)
    (h : pcs.isSome = true ∨ ms.isSome = true ∨ v.isSome = true) :
    (forward op pcs v vr ms).returned = true ∧
    (FEvent.writeImages ∈ (forward op pcs v vr ms).events ↔ op.isSome = true) := by
  cases pcs <;> cases ms <;> cases v <;> cases vr <;> cases op <;>
    simp_all [forward, tailEvents]

/-- Witness for C5 at concrete inputs: vertices supplied, output path set. -/
theorem c5_returns_tensor_writes_iff_output_path_witness :
    (forward (some "demo.mp4") (none : Option Nat)
        (some (TensorArg.tensor ⟨[4, 3]⟩)) none (none : Option Nat)).returned = true ∧
    (FEvent.writeImages ∈ (forward (some "demo.mp4") (none : Option Nat)
        (some (TensorArg.tensor ⟨[4, 3]⟩)) none (none : Option Nat)).events ↔
      (some "demo.mp4" : Option String).isSome = true) :=
  c5_returns_tensor_writes_iff_output_path (some "demo.mp4") (none : Option Nat)
    (some (TensorArg.tensor ⟨[4, 3]⟩)) none (none : Option Nat)
    (Or.inr (Or.inr rfl))

/-- C6: the weights tensor `forward` passes to the compositor is, entry for
entry, `1 - d2 / (r * r)` with `d2` the rasterizer's squared distance for that
candidate and `r` the rasterizer's configured point radius (the permute only
reorders indexes), and the returned pixel colors are exactly the compositor's
blend of the candidate features under those weights, reordered back by
`permute(0, 2, 3, 1)`. -/
theorem c6_compositor_distance_weights (compositor : T4 → T4 → T2 → T4)
    (fragments : Fragments) (r : ℚ) (features : T2) :
    (∀ b k h w,
      (renderCore compositor fragments r features).2.weightsArg b k h w =
        1 - fragments.dists b h w k / (r * r)) ∧
    (∀ b h w c,
      (renderCore compositor fragments r features).1 b h w c =
        compositor (renderCore compositor fragments r features).2.idxArg
          (renderCore compositor fragments r features).2.weightsArg
          (renderCore compositor fragments r features).2.featuresArg b c h w) :=
  ⟨fun _ _ _ _ => rfl, fun _ _ _ _ => rfl⟩

/-- Witness for C6 at concrete inputs: constant squared distance 1 and radius
2 give the weight `1 - 1 / (2 * 2)` at pixel (0,0,0,0). -/
theorem c6_compositor_distance_weights_witness :
    (renderCore (fun _ w _ => w) ⟨fun _ _ _ _ => (1 : ℚ), fun _ _ _ _ => 0⟩ 2
        (fun _ _ => 0)).2.weightsArg 0 0 0 0 = 1 - (1 : ℚ) / (2 * 2) :=
  (c6_compositor_distance_weights (fun _ w _ => w)
    ⟨fun _ _ _ _ => (1 : ℚ), fun _ _ _ _ => 0⟩ 2 (fun _ _ => 0)).1 0 0 0 0

/-- C8: `forward` raises its `AssertionError` exactly when `pointclouds`,
`meshes` and `vertices` are all `None`, and in that case no event at all — in
particular no rasterization and no compositing — has happened; with at least
one geometry input supplied the assertion is unreachable. -/
theorem c8_assertion_iff_no_geometry {PC MeshesT : Type} (op : Option String)
    (pcs : Option PC) (v vr : Option TensorArg) (ms : Option MeshesT) :
    ((forward op pcs v vr ms).error.isSome = true ↔
      (pcs = none ∧ ms = none ∧ v = none)) ∧
    (pcs = none → ms = none → v = none → (forward op pcs v vr ms).events = []) := by
  cases pcs <;> cases ms <;> cases v <;> simp [forward]

/-- Witness for C8 at concrete inputs: all three geometry arguments `None`. -/
theorem c8_assertion_iff_no_geometry_witness :
    (forward (none : Option String) (none : Option Nat) none none
        (none : Option Nat)).error.isSome = true ∧
    (forward (none : Option String) (none : Option Nat) none none
        (none : Option Nat)).events = [] :=
  ⟨(c8_assertion_iff_no_geometry (none : Option String) (none : Option Nat) none
      none (none : Option Nat)).1.mpr ⟨rfl, rfl, rfl⟩,
   (c8_assertion_iff_no_geometry (none : Option String) (none : Option Nat) none
      none (none : Option Nat)).2 rfl rfl rfl⟩

/-- C9: a 2-dimensional `vertices` tensor — and likewise a 2-dimensional
`verts_rgba` tensor — is promoted to a batch of one by `tensor[None]` (a
leading dimension of size 1) before the `Pointclouds` structure is built, so
`forward` accepts a single unbatched point set. -/
theorem c9_unbatched_tensor_promoted {PC MeshesT : Type} (op : Option String)
    (t u : PyTensor) (ht : t.shape.length = 2) (hu : u.shape.length = 2) :
    promoteIfTensor2d (TensorArg.tensor t) = TensorArg.tensor ⟨1 :: t.shape⟩ ∧
    (forward op (none : Option PC) (some (TensorArg.tensor t))
        (some (TensorArg.tensor u)) (none : Option MeshesT)).pointcloud =
      some (PointcloudsVal.constructed (TensorArg.tensor ⟨1 :: t.shape⟩)
        (some (TensorArg.tensor ⟨1 :: u.shape⟩))) := by
  constructor
  · simp [promoteIfTensor2d, unsqueeze0, ht]
  · simp [forward, promoteIfTensor2d, unsqueeze0, ht, hu]

/-- Witness for C9 at concrete inputs: a `(10, 3)` vertex tensor and a
`(10, 4)` color tensor each gain a leading batch dimension of 1. -/
theorem c9_unbatched_tensor_promoted_witness :
    promoteIfTensor2d (TensorArg.tensor ⟨[10, 3]⟩) =
      TensorArg.tensor ⟨1 :: [10, 3]⟩ ∧
    (forward (none : Option String) (none : Option Nat)
        (some (TensorArg.tensor ⟨[10, 3]⟩)) (some (TensorArg.tensor ⟨[10, 4]⟩))
        (none : Option Nat)).pointcloud =
      some (PointcloudsVal.constructed (TensorArg.tensor ⟨1 :: [10, 3]⟩)
        (some (TensorArg.tensor ⟨1 :: [10, 4]⟩))) :=
  c9_unbatched_tensor_promoted (none : Option String) ⟨[10, 3]⟩ ⟨[10, 4]⟩ rfl rfl

end PointCloudRenderer

end Mmhuman3d
